import Mathlib

/-!
Verification development for the `entail` Datastore access layer.

Shallow embedding of the data model (`src/entail/src/ds/entity.rs`,
`mutation.rs`), the access shell (`shell.rs`) and the transaction engine
(`transaction.rs`).  Pure Rust functions become Lean functions; the
transport collaborator (the `google_datastore1` hub) is replaced by
explicit per-call oracle values, and each `Transaction::run` loop
iteration draws its oracle from a list of `Attempt` records.  Machine
integers are modelled as `Nat`/`Int` with explicit truncation where the
source casts (`as u64`); `Duration` values are modelled by their whole
number of microseconds, which is exact for every duration the engine
builds (`Duration::from_millis`, `Duration::from_micros`, doubling).
Rust panics (`expect`, unsupported value kinds) are modelled as `none`.
-/

/-- Model of `serde_json::Value` (only the structure `get_obj` inspects). -/
inductive Json where
  | null
  | bool (b : Bool)
  | num (n : Int)
  | str (s : String)
  | arr (elems : List Json)
  | obj (fields : List (String × Json))

/-- Association-list lookup, modelling `serde_json::Map::get` (keys are
unique in a `serde_json` map, so first match is the match). -/
def lookupField {α : Type} : List (String × α) → String → Option α
  | [], _ => none
  | (k, v) :: rest, key => if k = key then some v else lookupField rest key

/-- Model of `get_obj` in `transaction.rs`: returns the object stored under
`key` when `value` is itself an object, `none` otherwise. -/
def getObj (value : Json) (key : String) : Option (List (String × Json)) :=
  match value with
  | .obj fields =>
    match lookupField fields key with
    | some (.obj val) => some val
    | _ => none
  | _ => none

/-- Model of `google_datastore1::Error`: the retry classifier only
distinguishes the `BadRequest(serde_json::Value)` variant from every
other variant, which are collapsed into `other`. -/
inductive DsError where
  | badRequest (value : Json)
  | other

/-- Model of `RetryRule` in `transaction.rs`. -/
inductive RetryRule where
  | normal
  | backoff
  | once
  | never
deriving DecidableEq, BEq

/-- Model of `RetryRule::based_on_error`.  The Rust `match status.as_str()`
over string literals is rendered as the equivalent chain of string
comparisons. -/
def RetryRule.basedOnError (error : DsError) : RetryRule :=
  match error with
  | .badRequest value =>
    match (getObj value "error").bind (fun obj => lookupField obj "status") with
    | some (.str status) =>
      if status = "ABORTED" then .normal
      else if status = "DEADLINE_EXCEEDED" then .backoff
      else if status = "UNAVAILABLE" then .backoff
      else if status = "INTERNAL" then .once
      else if status = "RESOURCE_EXHAUSTED" then .never
      else .never
    | _ => .never
  | _ => .never

/-- The transport status string carried by an error, exactly as
`RetryRule::based_on_error` extracts it: present only for a
`BadRequest` whose JSON carries an object `error` with a string
`status` field. -/
def DsError.status : DsError → Option String
  | .badRequest value =>
    match (getObj value "error").bind (fun obj => lookupField obj "status") with
    | some (.str status) => some status
    | _ => none
  | _ => none

/-- Model of `EntailError`; only the fields the transaction engine reads
and writes (`message`, `ds_error`) are modelled. -/
structure EntailError where
  message : String
  dsError : Option DsError

theorem basedOnError_of_status {e : DsError} {s : String} (h : e.status = some s) :
    RetryRule.basedOnError e =
      (if s = "ABORTED" then .normal
       else if s = "DEADLINE_EXCEEDED" then .backoff
       else if s = "UNAVAILABLE" then .backoff
       else if s = "INTERNAL" then .once
       else if s = "RESOURCE_EXHAUSTED" then .never
       else .never) := by
  cases e with
  | other => simp [DsError.status] at h
  | badRequest value =>
    simp only [DsError.status] at h
    simp only [RetryRule.basedOnError]
    rcases hb : (getObj value "error").bind (fun obj => lookupField obj "status") with _ | j
    · rw [hb] at h; simp at h
    · cases j <;> simp_all

theorem basedOnError_of_no_status {e : DsError} (h : e.status = none) :
    RetryRule.basedOnError e = .never := by
  cases e with
  | other => rfl
  | badRequest value =>
    simp only [DsError.status] at h
    simp only [RetryRule.basedOnError]
    rcases hb : (getObj value "error").bind (fun obj => lookupField obj "status") with _ | j
    · rfl
    · cases j <;> simp_all

/-- Model of `KeyVariant` in `entity.rs`. -/
inductive KeyVariant where
  | name (s : String)
  | id (i : Int)
  | incomplete
deriving DecidableEq

/-- Model of `Key` in `entity.rs`: kind, variant and an optional boxed
parent key. -/
inductive Key where
  | mk (kind : String) (variant : KeyVariant) (parent : Option Key)

/-- Model of `Key::new`: an incomplete key of the given kind. -/
def Key.new (kind : String) : Key := .mk kind .incomplete none

/-- Accessor for the `kind` field. -/
def Key.kind : Key → String
  | .mk k _ _ => k

/-- Accessor for the `variant` field. -/
def Key.variant : Key → KeyVariant
  | .mk _ v _ => v

/-- Model of `Key::parent` (the optional parent reference). -/
def Key.parent : Key → Option Key
  | .mk _ _ p => p

/-- Model of `Key::with_name`. -/
def Key.with_name (k : Key) (name : String) : Key :=
  .mk k.kind (.name name) k.parent

/-- Model of `Key::with_id`. -/
def Key.with_id (k : Key) (i : Int) : Key :=
  .mk k.kind (.id i) k.parent

/-- Model of `Key::with_parent`. -/
def Key.with_parent (k : Key) (parent : Key) : Key :=
  .mk k.kind k.variant (some parent)

/-- Model of `Key::with_boxed_parent`. -/
def Key.with_boxed_parent (k : Key) (parent : Option Key) : Key :=
  .mk k.kind k.variant parent

/-- Model of `google_datastore1::api::PathElement` (fields the code
reads/writes: `kind`, `id`, `name`). -/
structure PathElement where
  kind : Option String
  id : Option Int
  name : Option String
deriving DecidableEq

/-- Model of `google_datastore1::api::Key`.  `partition_id` is always
written as `None` by the code and never read, so it is modelled as an
`Option Unit` field. -/
structure ApiKey where
  partitionId : Option Unit
  path : Option (List PathElement)
deriving DecidableEq

/-- Model of `Key::push_path_elements`: the parent chain's elements
(root first), then this key's own element.  The output-vector pushes are
rendered as list append. -/
def Key.pathElements : Key → List PathElement
  | .mk kind variant parent =>
    (match parent with
     | some p => p.pathElements
     | none => []) ++
    [match variant with
     | .id i => { kind := some kind, id := some i, name := none }
     | .name n => { kind := some kind, id := none, name := some n }
     | .incomplete => { kind := some kind, id := none, name := none }]

/-- Model of `Key::to_api` (identical output to the consuming
`Into<google_datastore1::api::Key>` conversion). -/
def Key.to_api (k : Key) : ApiKey :=
  { partitionId := none, path := some k.pathElements }

/-- The loop body of `From<google_datastore1::api::Key> for Key`,
threading the `key_opt` accumulator over the path elements.  Rust panics
(`expect("Kindless key")`, and the final `expect("Empty path")` when the
accumulator is still empty) are modelled as `none`. -/
def buildPath : Option Key → List PathElement → Option Key
  | keyOpt, [] => keyOpt
  | keyOpt, element :: rest =>
    match element.kind with
    | none => none
    | some kind =>
      let key := Key.new kind
      let key :=
        match element.id with
        | some i => key.with_id i
        | none =>
          match element.name with
          | some n => key.with_name n
          | none => key
      let key :=
        match keyOpt with
        | some parent => key.with_boxed_parent (some parent)
        | none => key
      buildPath (some key) rest

/-- Model of `From<google_datastore1::api::Key> for Key` (panic on a
missing path modelled as `none`). -/
def keyFromApi (value : ApiKey) : Option Key :=
  match value.path with
  | none => none
  | some elements => buildPath none elements

/-- Replace the parent of the root ancestor of `k` by `acc`; describes
what folding `k`'s path elements on top of accumulator `acc` builds. -/
def Key.graftRoot : Key → Option Key → Key
  | .mk kind variant none, acc => .mk kind variant acc
  | .mk kind variant (some p), acc => .mk kind variant (some (p.graftRoot acc))

theorem buildPath_pathElements :
    ∀ (k : Key) (acc : Option Key) (rest : List PathElement),
      buildPath acc (k.pathElements ++ rest) = buildPath (some (k.graftRoot acc)) rest
  | .mk kind variant none, acc, rest => by
    cases variant <;>
      simp [Key.pathElements, Key.graftRoot, buildPath, Key.new, Key.with_id,
        Key.with_name, Key.with_boxed_parent, Key.kind, Key.variant, Key.parent] <;>
      cases acc <;> rfl
  | .mk kind variant (some p), acc, rest => by
    have ihp := buildPath_pathElements p
    cases variant <;>
      simp [Key.pathElements, Key.graftRoot, List.append_assoc, ihp, buildPath,
        Key.new, Key.with_id, Key.with_name, Key.with_boxed_parent,
        Key.kind, Key.variant, Key.parent]

theorem graftRoot_none : ∀ (k : Key), k.graftRoot none = k
  | .mk _ _ none => rfl
  | .mk kind variant (some p) => by simp [Key.graftRoot, graftRoot_none p]

theorem pathElements_ne_nil (k : Key) : k.pathElements ≠ [] := by
  cases k with
  | mk kind variant parent => cases parent <;> simp [Key.pathElements]

/-- Model of `Value` in `entity.rs`.  `Blob` bytes are modelled as a list
of naturals, and the `f64` payload of `FloatingPoint` by its bit
pattern (a `Nat`): the code never computes with the float, it only
stores and transports it. -/
inductive Value where
  | null
  | integer (i : Int)
  | boolean (b : Bool)
  | blob (bytes : List Nat)
  | unicodeString (s : String)
  | floatingPoint (bits : Nat)
  | array (values : List Value)
  | key (k : Key)

/-- Model of `Value::is_null`. -/
def Value.isNull : Value → Bool
  | .null => true
  | _ => false

/-- Model of `PropertyValue` in `entity.rs`. -/
structure PropertyValue where
  value : Value
  indexed : Bool
  meaning : Option Int

/-- Model of `Entity` in `entity.rs`.  The property `HashMap` is modelled
as an association list with unique keys; `HashMap::insert` becomes
replace-or-append. -/
structure Entity where
  key : Key
  properties : List (String × PropertyValue)

/-- Model of `HashMap::insert` on the association list: replaces the
binding if the name is present, appends it otherwise. -/
def insertProp : List (String × PropertyValue) → String → PropertyValue →
    List (String × PropertyValue)
  | [], name, pv => [(name, pv)]
  | (k, v) :: rest, name, pv =>
    if k = name then (name, pv) :: rest else (k, v) :: insertProp rest name pv

/-- Model of `Entity::new`. -/
def Entity.new (key : Key) : Entity := { key := key, properties := [] }

/-- Model of `Entity::set`. -/
def Entity.set (e : Entity) (name : String) (value : Value) (indexed : Bool)
    (meaning : Option Int) : Entity :=
  { e with properties := insertProp e.properties name ⟨value, indexed, meaning⟩ }

/-- Model of `Entity::set_advanced`. -/
def Entity.set_advanced (e : Entity) (name : String) (value : Value)
    (index_values index_nulls : Bool) (meaning : Option Int) : Entity :=
  let effective_value :=
    match value with
    | .array values => if values.isEmpty then Value.null else value
    | _ => value
  let is_null := effective_value.isNull
  let indexed := if is_null then index_nulls else index_values
  e.set name effective_value indexed (if is_null then none else meaning)

/-- Model of `Entity::get`. -/
def Entity.get (e : Entity) (name : String) : Option PropertyValue :=
  lookupField e.properties name

/-- Model of `Entity::is_indexed`. -/
def Entity.is_indexed (e : Entity) (name : String) : Bool :=
  ((e.get name).map (fun v => v.indexed)).getD false

/-- The empty-array-to-null coercion performed first by
`Entity::set_advanced` (the spec's "effective value"). -/
def effectiveValue (value : Value) : Value :=
  match value with
  | .array values => if values.isEmpty then Value.null else value
  | _ => value

theorem lookupField_insertProp (props : List (String × PropertyValue))
    (name : String) (pv : PropertyValue) :
    lookupField (insertProp props name pv) name = some pv := by
  induction props with
  | nil => simp [insertProp, lookupField]
  | cons hd tl ih =>
    obtain ⟨k, v⟩ := hd
    by_cases h : k = name <;> simp [insertProp, lookupField, h, ih]

mutual
/-- Model of `google_datastore1::api::Value`.  Field order:
`null_value`, `integer_value`, `boolean_value`, `blob_value`,
`string_value`, `double_value`, `array_value`, `key_value`,
`exclude_from_indexes`, `meaning`, `entity_value`, `geo_point_value`,
`timestamp_value`.  The unsupported payloads (`entity_value`,
`geo_point_value`, `timestamp_value`) are modelled as presence flags
(`Option Unit`), which is all the conversion code inspects. -/
inductive ApiValue where
  | mk (nullValue : Option String) (integerValue : Option Int)
      (booleanValue : Option Bool) (blobValue : Option (List Nat))
      (stringValue : Option String) (doubleValue : Option Nat)
      (arrayValue : Option ApiArrayValue) (keyValue : Option ApiKey)
      (excludeFromIndexes : Option Bool) (meaning : Option Int)
      (entityValue : Option Unit) (geoPointValue : Option Unit)
      (timestampValue : Option Unit)

/-- Model of `google_datastore1::api::ArrayValue`. -/
inductive ApiArrayValue where
  | mk (values : Option (List ApiValue))
end

/-- Accessor for `array_value`. -/
def ApiValue.arrayValue : ApiValue → Option ApiArrayValue
  | .mk _ _ _ _ _ _ av _ _ _ _ _ _ => av

/-- Accessor for `exclude_from_indexes`. -/
def ApiValue.excludeFromIndexes : ApiValue → Option Bool
  | .mk _ _ _ _ _ _ _ _ ex _ _ _ _ => ex

/-- Accessor for `meaning`. -/
def ApiValue.meaning : ApiValue → Option Int
  | .mk _ _ _ _ _ _ _ _ _ mn _ _ _ => mn

/-- Accessor for `values`. -/
def ApiArrayValue.values : ApiArrayValue → Option (List ApiValue)
  | .mk v => v

/-- Assignment of the `exclude_from_indexes` and `meaning` fields (the
two mutations `Into<api::Entity>` performs on a value). -/
def ApiValue.setIndexMeta : ApiValue → Option Bool → Option Int → ApiValue
  | .mk a b c d e f g h _ _ i j k, ex, mn => .mk a b c d e f g h ex mn i j k

/-- Assignment of the `array_value` field. -/
def ApiValue.setArrayValue : ApiValue → Option ApiArrayValue → ApiValue
  | .mk a b c d e f _ h ex mn i j k, av => .mk a b c d e f av h ex mn i j k

mutual
/-- Model of `Into<google_datastore1::api::Value> for Value`: a default
(all-`None`) wire value with exactly one payload field set. -/
def valueToApi : Value → ApiValue
  | .null => .mk (some "NULL_VALUE") none none none none none none none none none none none none
  | .integer i => .mk none (some i) none none none none none none none none none none none
  | .boolean b => .mk none none (some b) none none none none none none none none none none
  | .blob bytes => .mk none none none (some bytes) none none none none none none none none none
  | .unicodeString s => .mk none none none none (some s) none none none none none none none none
  | .floatingPoint f => .mk none none none none none (some f) none none none none none none none
  | .key k => .mk none none none none none none none (some k.to_api) none none none none none
  | .array values =>
    .mk none none none none none none (some (.mk (some (listValueToApi values)))) none none none
      none none none

/-- Elementwise conversion of an array's values (the `map(Value::into)`
in the `Value::Array` arm). -/
def listValueToApi : List Value → List ApiValue
  | [] => []
  | v :: rest => valueToApi v :: listValueToApi rest
end

mutual
/-- Model of `From<google_datastore1::api::Value> for Value`: the chain
of `if let Some(..)` tests, in source order.  The panic on unsupported
value kinds (`entity_value`, `geo_point_value`, `timestamp_value`) is
modelled as `none`; the final fallthrough produces `Null`. -/
def valueFromApi : ApiValue → Option Value
  | .mk _nullValue integerValue booleanValue blobValue stringValue doubleValue arrayValue keyValue
      _excludeFromIndexes _meaning entityValue geoPointValue timestampValue =>
    match integerValue with
    | some i => some (.integer i)
    | none =>
      match booleanValue with
      | some b => some (.boolean b)
      | none =>
        match blobValue with
        | some bytes => some (.blob bytes)
        | none =>
          match stringValue with
          | some s => some (.unicodeString s)
          | none =>
            match doubleValue with
            | some d => some (.floatingPoint d)
            | none =>
              match arrayValue with
              | some (.mk (some vs)) => (listValueFromApi vs).map Value.array
              | some (.mk none) => some (.array [])
              | none =>
                match keyValue with
                | some kv => (keyFromApi kv).map Value.key
                | none =>
                  if entityValue.isSome || geoPointValue.isSome || timestampValue.isSome then
                    none
                  else some .null

/-- Elementwise conversion of an array's values back into the model,
propagating the panic (`none`) of any element. -/
def listValueFromApi : List ApiValue → Option (List Value)
  | [] => some []
  | v :: rest =>
    match valueFromApi v, listValueFromApi rest with
    | some x, some xs => some (x :: xs)
    | _, _ => none
end

/-- Model of `google_datastore1::api::Entity` (the fields the code
uses); the properties `HashMap` is modelled as an association list. -/
structure ApiEntity where
  key : Option ApiKey
  properties : Option (List (String × ApiValue))

/-- The per-property closure of `Into<google_datastore1::api::Entity>`:
convert the value, then broadcast the property's `indexed`/`meaning`
onto every array element, or set them on the value itself when it is
not an array. -/
def propToApi (value : PropertyValue) : ApiValue :=
  let indexed := value.indexed
  let meaning := value.meaning
  let val := valueToApi value.value
  match val.arrayValue with
  | some arr =>
    match arr.values with
    | some values =>
      val.setArrayValue
        (some (.mk (some (values.map (fun item => item.setIndexMeta (some !indexed) meaning)))))
    | none => val
  | none => val.setIndexMeta (some !indexed) meaning

/-- Model of `Into<google_datastore1::api::Entity> for Entity`. -/
def entityToApi (e : Entity) : ApiEntity :=
  { key := some e.key.to_api,
    properties := some (e.properties.map (fun kv => (kv.1, propToApi kv.2))) }

/-- The property loop of `From<google_datastore1::api::Entity>`: each
wire property is stored with `indexed = !exclude_from_indexes.unwrap_or(false)`
and the wire `meaning`; a panic while converting a value is `none`. -/
def setPropsFromApi : Entity → List (String × ApiValue) → Option Entity
  | result, [] => some result
  | result, (key, value) :: rest =>
    let indexed := !(value.excludeFromIndexes.getD false)
    let meaning := value.meaning
    match valueFromApi value with
    | none => none
    | some v => setPropsFromApi (result.set key v indexed meaning) rest

/-- Model of `From<google_datastore1::api::Entity> for Entity` (panics
on a missing or malformed key modelled as `none`). -/
def entityFromApi (value : ApiEntity) : Option Entity :=
  match value.key with
  | none => none
  | some apiKey =>
    match keyFromApi apiKey with
    | none => none
    | some k =>
      match value.properties with
      | none => some (Entity.new k)
      | some props => setPropsFromApi (Entity.new k) props

theorem lookupField_map {α β : Type} (f : α → β) :
    ∀ (props : List (String × α)) (name : String),
      lookupField (props.map (fun kv => (kv.1, f kv.2))) name =
        (lookupField props name).map f := by
  intro props name
  induction props with
  | nil => rfl
  | cons hd tl ih =>
    obtain ⟨k, v⟩ := hd
    by_cases h : k = name <;> simp [lookupField, h, ih]

theorem setIndexMeta_fields :
    ∀ (v : ApiValue) (ex : Option Bool) (mn : Option Int),
      (v.setIndexMeta ex mn).excludeFromIndexes = ex ∧ (v.setIndexMeta ex mn).meaning = mn
  | .mk _ _ _ _ _ _ _ _ _ _ _ _ _, _, _ => ⟨rfl, rfl⟩

/-- C6: `Entity::set_advanced` first coerces an empty array to `Null`;
the stored indexed flag is `index_nulls` if the effective value is
`Null` and `index_values` otherwise; the stored meaning is `None`
whenever the effective value is `Null`; and in particular storing an
empty array with `(index_values, index_nulls, meaning) = (true, false, some 7)`
yields `(Null, false, none)` and with `(true, true, some 7)` yields
`(Null, true, none)`. -/
theorem set_advanced_normalization :
    (∀ (e : Entity) (name : String) (value : Value) (iv inl : Bool) (mn : Option Int),
      (e.set_advanced name value iv inl mn).get name =
        some ⟨effectiveValue value,
              if (effectiveValue value).isNull then inl else iv,
              if (effectiveValue value).isNull then none else mn⟩) ∧
    (∀ (e : Entity) (name : String),
      (e.set_advanced name (.array []) true false (some 7)).get name =
        some ⟨.null, false, none⟩) ∧
    (∀ (e : Entity) (name : String),
      (e.set_advanced name (.array []) true true (some 7)).get name =
        some ⟨.null, true, none⟩) := by
  have main : ∀ (e : Entity) (name : String) (value : Value) (iv inl : Bool) (mn : Option Int),
      (e.set_advanced name value iv inl mn).get name =
        some ⟨effectiveValue value,
              if (effectiveValue value).isNull then inl else iv,
              if (effectiveValue value).isNull then none else mn⟩ := by
    intro e name value iv inl mn
    cases value <;>
      simp [Entity.set_advanced, Entity.set, Entity.get, lookupField_insertProp,
        effectiveValue, Value.isNull]
  refine ⟨main, ?_, ?_⟩ <;> intro e name <;> simpa using main e name (.array []) _ _ (some 7)

/-- C8: converting any key (of any path depth) to its wire form and
back yields the identical key: kind, variant and the whole parent
chain are restored. -/
theorem key_wire_roundtrip (k : Key) : keyFromApi k.to_api = some k := by
  have h := buildPath_pathElements k none []
  simpa [keyFromApi, Key.to_api, buildPath, graftRoot_none] using h

/-- An entity with a single unindexed array-valued property, the
round-trip test vehicle for the array indexing flag. -/
def exampleUnindexedArrayEntity : Entity :=
  (Entity.new (Key.new "K")).set "tags" (.array [.integer 1]) false none

/-- C7 counterexample: an entity whose array property is stored with
`indexed = false` converts to the wire and back with `indexed = true`:
deserialization does not read the element-level flag back. -/
theorem array_flag_roundtrip_cex :
    exampleUnindexedArrayEntity.is_indexed "tags" = false ∧
    (entityFromApi (entityToApi exampleUnindexedArrayEntity)).map
      (fun e1 => e1.is_indexed "tags") = some true := by
  exact ⟨rfl, rfl⟩

/-- C7 (amended): serialization broadcasts the property-level indexed
flag (negated, as `exclude_from_indexes`) and the meaning onto every
element of an array-valued property; deserialization, however, reads
only the property-level `exclude_from_indexes` flag (treating absence
as indexed) and ignores the element-level flags, so the unindexed
array property of the example entity round-trips to `indexed = true`. -/
theorem array_flag_broadcast :
    (∀ (e : Entity) (name : String) (pv : PropertyValue) (vs : List Value),
      e.get name = some pv → pv.value = .array vs →
      ∃ apiV items,
        ((entityToApi e).properties.bind (fun props => lookupField props name)) = some apiV ∧
        apiV.arrayValue = some (.mk (some items)) ∧
        ∀ item ∈ items,
          item.excludeFromIndexes = some (!pv.indexed) ∧ item.meaning = pv.meaning) ∧
    (∀ (ent : Entity) (name : String) (apiV : ApiValue) (rest : List (String × ApiValue))
        (v : Value),
      valueFromApi apiV = some v →
      setPropsFromApi ent ((name, apiV) :: rest) =
        setPropsFromApi (ent.set name v (!(apiV.excludeFromIndexes.getD false)) apiV.meaning)
          rest) ∧
    (exampleUnindexedArrayEntity.is_indexed "tags" = false ∧
      (entityFromApi (entityToApi exampleUnindexedArrayEntity)).map
        (fun e1 => e1.is_indexed "tags") = some true) := by
  refine ⟨?_, ?_, rfl, rfl⟩
  · intro e name pv vs hget hval
    obtain ⟨pvv, pvi, pvm⟩ := pv
    simp only at hval
    subst hval
    refine ⟨propToApi ⟨.array vs, pvi, pvm⟩,
      (listValueToApi vs).map (fun item => item.setIndexMeta (some !pvi) pvm), ?_, ?_, ?_⟩
    · simp only [entityToApi, Option.some_bind, lookupField_map]
      rw [show lookupField e.properties name = e.get name from rfl, hget]
      rfl
    · rfl
    · intro item hitem
      simp only [List.mem_map] at hitem
      obtain ⟨x, _, hx⟩ := hitem
      subst hx
      exact setIndexMeta_fields x _ _
  · intro ent name apiV rest v hv
    simp [setPropsFromApi, hv]

theorem array_flag_broadcast_witness :
    (∃ apiV items,
      ((entityToApi exampleUnindexedArrayEntity).properties.bind
        (fun props => lookupField props "tags")) = some apiV ∧
      apiV.arrayValue = some (.mk (some items)) ∧
      ∀ item ∈ items,
        item.excludeFromIndexes = some (!false) ∧ item.meaning = (none : Option Int)) ∧
    setPropsFromApi (Entity.new (Key.new "K")) [("p", valueToApi (.integer 3))] =
      setPropsFromApi ((Entity.new (Key.new "K")).set "p" (.integer 3)
        (!((valueToApi (.integer 3)).excludeFromIndexes.getD false))
        (valueToApi (.integer 3)).meaning) [] :=
  ⟨array_flag_broadcast.1 exampleUnindexedArrayEntity "tags"
      ⟨.array [.integer 1], false, none⟩ [.integer 1] rfl rfl,
    array_flag_broadcast.2.1 (Entity.new (Key.new "K")) "p" (valueToApi (.integer 3)) []
      (.integer 3) rfl⟩

/-- Transaction tokens (`Vec<u8>`) are modelled as lists of naturals. -/
def Token : Type := List Nat

/-- Model of `DatastoreShell` in `shell.rs`; the `project_id` and the
transport handle (`hub`) are irrelevant to the verified behaviour (the
transport is an explicit oracle argument of each operation), so only
`database_id` and `transaction` are modelled. -/
structure DatastoreShell where
  databaseId : Option String
  transaction : Option Token

/-- Model of `google_datastore1::api::Mutation` (one optional payload
per mutation kind). -/
structure ApiMutation where
  insert : Option ApiEntity
  update : Option ApiEntity
  upsert : Option ApiEntity
  delete : Option ApiKey

/-- Model of `MutationBatch` in `mutation.rs` (already stores converted
wire mutations). -/
structure MutationBatch where
  mutations : List ApiMutation

/-- Model of `MutationBatch::new`. -/
def MutationBatch.new : MutationBatch := ⟨[]⟩

/-- Model of `google_datastore1::api::MutationResult` (fields read by
the conversion; timestamps are opaque). -/
structure ApiMutationResult where
  key : Option ApiKey
  version : Option Int
  createTime : Option Nat
  updateTime : Option Nat

/-- Model of `google_datastore1::api::CommitResponse` (fields read by
the conversion). -/
structure ApiCommitResponse where
  mutationResults : Option (List ApiMutationResult)
  indexUpdates : Option Int
  commitTime : Option Nat

/-- Model of `MutationResult` in `mutation.rs`. -/
structure MutationResult where
  key : Option Key
  version : Int
  createTime : Option Nat
  updateTime : Option Nat

/-- Model of `MutationResponse` in `mutation.rs`. -/
structure MutationResponse where
  mutationResults : List MutationResult
  indexUpdates : Int
  commitTime : Option Nat

/-- Model of the derived `Default` for `MutationResponse`. -/
def MutationResponse.default : MutationResponse := ⟨[], 0, none⟩

/-- Model of `From<google_datastore1::api::MutationResult>`; the key
conversion's panic is modelled as `none`. -/
def MutationResult.fromApi (value : ApiMutationResult) : Option MutationResult :=
  match value.key with
  | some k =>
    (keyFromApi k).map (fun kk => ⟨some kk, value.version.getD 0, value.createTime,
      value.updateTime⟩)
  | none => some ⟨none, value.version.getD 0, value.createTime, value.updateTime⟩

/-- Model of `From<google_datastore1::api::CommitResponse> for MutationResponse`. -/
def MutationResponse.fromApi (value : ApiCommitResponse) : Option MutationResponse :=
  ((value.mutationResults.getD []).mapM MutationResult.fromApi).map
    (fun rs => ⟨rs, value.indexUpdates.getD 0, value.commitTime⟩)

/-- Model of `google_datastore1::api::CommitRequest` (fields the code
fills in). -/
structure CommitRequest where
  databaseId : Option String
  mode : Option String
  mutations : Option (List ApiMutation)
  transaction : Option Token

/-- Model of `DatastoreShell::commit`.  The transport call is the
oracle `transport`; the second component records whether the transport
was actually consulted (`false` on the empty-batch short circuit).  A
response-conversion panic is the outer `none`. -/
def DatastoreShell.commit (shell : DatastoreShell) (batch : MutationBatch)
    (transport : Except DsError ApiCommitResponse) :
    Option (Except EntailError MutationResponse) × Bool :=
  let request : CommitRequest :=
    { databaseId := shell.databaseId,
      mode := some (match shell.transaction with
        | some _ => "TRANSACTIONAL"
        | none => "NON_TRANSACTIONAL"),
      mutations := some batch.mutations,
      transaction := shell.transaction }
  if (request.mutations.filter (fun ms => !ms.isEmpty)).isNone then
    (some (.ok MutationResponse.default), false)
  else
    match transport with
    | .ok result =>
      (match MutationResponse.fromApi result with
       | some resp => some (.ok resp)
       | none => none, true)
    | .error err => (some (.error ⟨"Commit error", some err⟩), true)

/-- Model of `DatastoreShell::rollback`: no-op success when neither the
argument nor the shell carries a transaction, otherwise the transport
oracle decides, with the failure wrapped as a "Rollback error". -/
def DatastoreShell.rollback (shell : DatastoreShell) (transaction : Option Token)
    (transport : Except DsError Unit) : Except EntailError Unit :=
  let requestTransaction := transaction.or shell.transaction
  match requestTransaction with
  | none => .ok ()
  | some _ =>
    match transport with
    | .ok _ => .ok ()
    | .error err => .error ⟨"Rollback error", some err⟩

/-- Model of `DatastoreShell::begin_transaction`: on transport success
a new shell carrying the fresh token; `previous` only feeds the request
sent to the transport oracle. -/
def DatastoreShell.begin_transaction (shell : DatastoreShell) (previous : Option Token)
    (transport : Except DsError (Option Token)) : Except EntailError DatastoreShell :=
  match previous, transport with
  | _, .ok transaction => .ok { shell with transaction := transaction }
  | _, .error err => .error ⟨"Begin transaction error", some err⟩

/-- Model of `google_datastore1::api::AllocateIdsResponse` (field read
by the code). -/
structure ApiAllocateIdsResponse where
  keys : Option (List ApiKey)

/-- Model of `google_datastore1::api::AllocateIdsRequest` and
`ReserveIdsRequest` (they have the same two fields). -/
structure ApiKeysRequest where
  databaseId : Option String
  keys : Option (List ApiKey)

/-- Model of `DatastoreShell::allocate_ids`; the Bool records whether
the transport was consulted, the outer `none` a key-conversion panic. -/
def DatastoreShell.allocate_ids (shell : DatastoreShell) (incomplete_keys : List Key)
    (transport : Except DsError ApiAllocateIdsResponse) :
    Option (Except EntailError (List Key)) × Bool :=
  let keys := incomplete_keys.map Key.to_api
  if keys.isEmpty then (some (.ok []), false)
  else
    let _request : ApiKeysRequest := { databaseId := shell.databaseId, keys := some keys }
    match transport with
    | .ok result =>
      (match (result.keys.getD []).mapM keyFromApi with
       | some ks => some (.ok ks)
       | none => none, true)
    | .error err => (some (.error ⟨"Allocate IDs error", some err⟩), true)

/-- Model of `DatastoreShell::reserve_ids`; the Bool records whether
the transport was consulted. -/
def DatastoreShell.reserve_ids (shell : DatastoreShell) (id_keys : List Key)
    (transport : Except DsError Unit) : Except EntailError Unit × Bool :=
  let keys := id_keys.map Key.to_api
  if keys.isEmpty then (.ok (), false)
  else
    let _request : ApiKeysRequest := { databaseId := shell.databaseId, keys := some keys }
    match transport with
    | .ok _ => (.ok (), true)
    | .error err => (.error ⟨"Reserve IDs error", some err⟩, true)

/-- Model of `TransactionShell` in `transaction.rs`. -/
structure TransactionShell where
  ds : DatastoreShell
  active : Bool

/-- Model of `From<DatastoreShell> for TransactionShell`: active iff the
shell carries a transaction token. -/
def TransactionShell.fromDs (ds : DatastoreShell) : TransactionShell :=
  let has_txn := ds.transaction.isSome
  { ds := ds, active := has_txn }

/-- Model of `TransactionShell::commit`: delegate to the wrapped shell,
then clear `active` only on success. -/
def TransactionShell.commit (ts : TransactionShell) (batch : MutationBatch)
    (transport : Except DsError ApiCommitResponse) :
    TransactionShell × Option (Except EntailError MutationResponse) :=
  match (ts.ds.commit batch transport).1 with
  | some result =>
    (if result.isOk then { ts with active := false } else ts, some result)
  | none => (ts, none)

/-- Model of `TransactionShell::rollback`: `self.ds.rollback(&None)`,
then clear `active` only on success. -/
def TransactionShell.rollback (ts : TransactionShell) (transport : Except DsError Unit) :
    TransactionShell × Except EntailError Unit :=
  let result := ts.ds.rollback none transport
  (if result.isOk then { ts with active := false } else ts, result)

/-- The size of the `u64` range: `as u64` casts on `as_micros()` values
are `% u64Size`. -/
def u64Size : Nat := 2 ^ 64

/-- `Duration::MAX` in whole microseconds (`u64::MAX` seconds plus
`999_999_999` nanoseconds, truncated to microseconds). -/
def durationMaxMicros : Nat := (2 ^ 64 - 1) * 1000000 + 999999

/-- Model of `Duration::from_millis` (durations are microsecond counts). -/
def Duration.fromMillis (n : Nat) : Nat := n * 1000

/-- Model of `current_delay.checked_mul(2).unwrap_or(current_delay)`:
doubling, saturating back to the original on `Duration` overflow. -/
def Duration.checkedMul2 (d : Nat) : Nat :=
  if 2 * d ≤ durationMaxMicros then 2 * d else d

/-- Model of `Transaction` in `transaction.rs` (`first_retry` in
microseconds). -/
structure Transaction where
  retry_count : Nat
  first_retry : Nat
  ds : DatastoreShell

/-- Model of `Transaction::new`: default 16 retries, 25 ms base delay. -/
def Transaction.new (ds : DatastoreShell) : Transaction :=
  { retry_count := 16, first_retry := Duration.fromMillis 25, ds := ds }

/-- Observable side effects of one `Transaction::run` execution:
an `attempt` for every loop iteration that starts an attempt, a
`rollback` for every automatic rollback the runner itself performs, and
a `sleep` (with its duration in microseconds) for every backoff wait. -/
inductive Event where
  | attempt
  | rollback
  | sleep (micros : Nat)
deriving DecidableEq

/-- The oracle for one iteration of the `Transaction::run` loop: the
transport outcome of `begin_transaction`, the user closure (which may
mutate the transactional shell), the transport outcome of a rollback
(if one is issued), and the `next_u64()` value the jitter would draw. -/
structure Attempt (T : Type) where
  beginTransport : Except DsError (Option Token)
  body : TransactionShell → TransactionShell × Except EntailError T
  rollbackTransport : Except DsError Unit
  rng : Nat

/-- Model of the loop of `Transaction::run`, one list entry per
iteration that starts an attempt.  The first component is `none` when
the oracle list is exhausted before the loop returns; the second is the
trace of observable events.  State arguments mirror the loop-local
variables `retries_left`, `last_error`, `last_txn`, `current_delay`. -/
def runLoop {T : Type} (self : Transaction) :
    List (Attempt T) → Nat → Option DsError → Option Token → Nat →
    Option (Except EntailError T) × List Event
  | _, 0, lastError, _, _ =>
    (some (.error ⟨"Retries exhausted", lastError⟩), [])
  | [], _ + 1, _, _, _ => (none, [])
  | att :: rest, retriesLeft + 1, _lastError, lastTxn, currentDelay =>
    match self.ds.begin_transaction lastTxn att.beginTransport with
    | .error e => (some (.error e), [.attempt])
    | .ok shell =>
      let thisTxn := TransactionShell.fromDs shell
      let lastTxn := thisTxn.ds.transaction
      let (thisTxn, result) := att.body thisTxn
      match result with
      | .ok v =>
        if thisTxn.active then
          match (thisTxn.rollback att.rollbackTransport).2 with
          | .error e => (some (.error e), [.attempt, .rollback])
          | .ok _ => (some (.ok v), [.attempt, .rollback])
        else (some (.ok v), [.attempt])
      | .error err =>
        let events := if thisTxn.active then [Event.attempt, Event.rollback] else [Event.attempt]
        if thisTxn.active && !(thisTxn.rollback att.rollbackTransport).2.isOk then
          (some (.error ⟨"Autorollback error", err.dsError⟩), events)
        else
          let retry :=
            match err.dsError with
            | some rawError => RetryRule.basedOnError rawError
            | none => RetryRule.never
          match retry with
          | .backoff | .normal =>
            let backoff := retry == RetryRule.backoff
            let nextDelay := if backoff then Duration.checkedMul2 currentDelay else currentDelay
            let minv := (currentDelay >>> (if backoff then 0 else 1)) % u64Size
            let maxv := nextDelay % u64Size
            let val := if maxv > minv then att.rng % (maxv - minv) + minv else maxv
            let next := runLoop self rest retriesLeft err.dsError lastTxn nextDelay
            (next.1, events ++ [Event.sleep val] ++ next.2)
          | .once =>
            let retriesLeft2 := if retriesLeft > 0 then 1 else retriesLeft
            let next := runLoop self rest retriesLeft2 err.dsError lastTxn currentDelay
            (next.1, events ++ next.2)
          | .never => (some (.error err), events)

/-- Model of `Transaction::run`: start the loop with the configured
budget and base delay and no last error/transaction. -/
def Transaction.run {T : Type} (self : Transaction) (env : List (Attempt T)) :
    Option (Except EntailError T) × List Event :=
  runLoop self env self.retry_count none none self.first_retry

/-- Number of attempts recorded in an event trace. -/
def countAttempts (events : List Event) : Nat :=
  (events.filter (fun e => e == Event.attempt)).length

/-- The continuation of one `Transaction::run` loop iteration whose user
closure failed, taken from the point where the automatic rollback is
considered (a factored copy of the error branch of `runLoop`, used to
state per-iteration lemmas). -/
def errorStep {T : Type} (self : Transaction) (att : Attempt T) (rest : List (Attempt T))
    (retriesLeft : Nat) (lastTxn : Option Token) (currentDelay : Nat)
    (thisTxn : TransactionShell) (err : EntailError) :
    Option (Except EntailError T) × List Event :=
  let events := if thisTxn.active then [Event.attempt, Event.rollback] else [Event.attempt]
  if thisTxn.active && !(thisTxn.rollback att.rollbackTransport).2.isOk then
    (some (.error ⟨"Autorollback error", err.dsError⟩), events)
  else
    let retry :=
      match err.dsError with
      | some rawError => RetryRule.basedOnError rawError
      | none => RetryRule.never
    match retry with
    | .backoff | .normal =>
      let backoff := retry == RetryRule.backoff
      let nextDelay := if backoff then Duration.checkedMul2 currentDelay else currentDelay
      let minv := (currentDelay >>> (if backoff then 0 else 1)) % u64Size
      let maxv := nextDelay % u64Size
      let val := if maxv > minv then att.rng % (maxv - minv) + minv else maxv
      let next := runLoop self rest retriesLeft err.dsError lastTxn nextDelay
      (next.1, events ++ [Event.sleep val] ++ next.2)
    | .once =>
      let retriesLeft2 := if retriesLeft > 0 then 1 else retriesLeft
      let next := runLoop self rest retriesLeft2 err.dsError lastTxn currentDelay
      (next.1, events ++ next.2)
    | .never => (some (.error err), events)

theorem runLoop_error_step {T : Type} {self : Transaction} {att : Attempt T}
    {rest : List (Attempt T)} {n : Nat} {lastError : Option DsError}
    {lastTxn : Option Token} {d : Nat} {tok : Option Token}
    {shell2 : TransactionShell} {err : EntailError}
    (hbegin : att.beginTransport = .ok tok)
    (hbody : att.body (TransactionShell.fromDs { self.ds with transaction := tok }) =
      (shell2, .error err)) :
    runLoop self (att :: rest) (n + 1) lastError lastTxn d =
      errorStep self att rest n tok d shell2 err := by
  simp only [runLoop, DatastoreShell.begin_transaction, hbegin, hbody, errorStep]
  rfl

/-- A transport error whose JSON payload carries the given status
string, the canonical inhabitant of each row of the retry table. -/
def statusErr (s : String) : DsError :=
  .badRequest (.obj [("error", .obj [("status", .str s)])])

/-- C1: the retry classifier maps status ABORTED to Normal,
DEADLINE_EXCEEDED and UNAVAILABLE to Backoff, INTERNAL to Once, and
RESOURCE_EXHAUSTED, any unrecognized status or an absent status to
Never; and a failure classified Never makes `Transaction::run` return
that error immediately, with no further attempt. -/
theorem retry_classification :
    (∀ e : DsError, e.status = some "ABORTED" → RetryRule.basedOnError e = .normal) ∧
    (∀ e : DsError, e.status = some "DEADLINE_EXCEEDED" → RetryRule.basedOnError e = .backoff) ∧
    (∀ e : DsError, e.status = some "UNAVAILABLE" → RetryRule.basedOnError e = .backoff) ∧
    (∀ e : DsError, e.status = some "INTERNAL" → RetryRule.basedOnError e = .once) ∧
    (∀ e : DsError, e.status = some "RESOURCE_EXHAUSTED" → RetryRule.basedOnError e = .never) ∧
    (∀ (e : DsError) (s : String), e.status = some s →
      s ∉ (["ABORTED", "DEADLINE_EXCEEDED", "UNAVAILABLE", "INTERNAL",
        "RESOURCE_EXHAUSTED"] : List String) →
      RetryRule.basedOnError e = .never) ∧
    (∀ e : DsError, e.status = none → RetryRule.basedOnError e = .never) ∧
    (∀ (T : Type) (self : Transaction) (att : Attempt T) (rest : List (Attempt T))
        (n : Nat) (lastError : Option DsError) (lastTxn : Option Token) (d : Nat)
        (tok : Option Token) (shell2 : TransactionShell) (err : EntailError),
      att.beginTransport = .ok tok →
      att.body (TransactionShell.fromDs { self.ds with transaction := tok }) =
        (shell2, .error err) →
      (shell2.active = true → (shell2.rollback att.rollbackTransport).2 = .ok ()) →
      (err.dsError = none ∨
        ∃ raw, err.dsError = some raw ∧ RetryRule.basedOnError raw = .never) →
      runLoop self (att :: rest) (n + 1) lastError lastTxn d =
        (some (.error err),
          if shell2.active then [.attempt, .rollback] else [.attempt])) := by
  refine ⟨?_, ?_, ?_, ?_, ?_, ?_, ?_, ?_⟩
  · intro e h; rw [basedOnError_of_status h]; rfl
  · intro e h; rw [basedOnError_of_status h]; rfl
  · intro e h; rw [basedOnError_of_status h]; rfl
  · intro e h; rw [basedOnError_of_status h]; rfl
  · intro e h; rw [basedOnError_of_status h]; rfl
  · intro e s h hmem
    rw [basedOnError_of_status h]
    simp only [List.mem_cons, List.mem_singleton] at hmem
    push_neg at hmem
    obtain ⟨h1, h2, h3, h4, h5⟩ := hmem
    simp [h1, h2, h3, h4, h5]
  · intro e h; exact basedOnError_of_no_status h
  · intro T self att rest n lastError lastTxn d tok shell2 err hbegin hbody hrb hclass
    rw [runLoop_error_step hbegin hbody]
    unfold errorStep
    by_cases ha : shell2.active
    · have hok := hrb ha
      rcases hclass with hnone | ⟨raw, hraw, hnever⟩
      · simp [ha, hok, hnone, Except.isOk, Except.toBool]
      · simp [ha, hok, hraw, hnever, Except.isOk, Except.toBool]
    · rcases hclass with hnone | ⟨raw, hraw, hnever⟩
      · simp [ha, hnone, Except.isOk, Except.toBool]
      · simp [ha, hraw, hnever, Except.isOk, Except.toBool]

theorem retry_classification_witness :
    RetryRule.basedOnError (statusErr "ABORTED") = .normal ∧
    RetryRule.basedOnError (statusErr "DEADLINE_EXCEEDED") = .backoff ∧
    RetryRule.basedOnError (statusErr "UNAVAILABLE") = .backoff ∧
    RetryRule.basedOnError (statusErr "INTERNAL") = .once ∧
    RetryRule.basedOnError (statusErr "RESOURCE_EXHAUSTED") = .never ∧
    RetryRule.basedOnError (statusErr "WHATEVER") = .never ∧
    RetryRule.basedOnError DsError.other = .never ∧
    runLoop (Transaction.new ⟨none, none⟩)
        [(⟨.ok (some [0]),
          (fun s => (s, .error ⟨"Commit error", some (statusErr "RESOURCE_EXHAUSTED")⟩)),
          .ok (), 0⟩ : Attempt Nat)] 4 none none 25000 =
      (some (.error ⟨"Commit error", some (statusErr "RESOURCE_EXHAUSTED")⟩),
        [.attempt, .rollback]) :=
  ⟨retry_classification.1 (statusErr "ABORTED") rfl,
   retry_classification.2.1 (statusErr "DEADLINE_EXCEEDED") rfl,
   retry_classification.2.2.1 (statusErr "UNAVAILABLE") rfl,
   retry_classification.2.2.2.1 (statusErr "INTERNAL") rfl,
   retry_classification.2.2.2.2.1 (statusErr "RESOURCE_EXHAUSTED") rfl,
   retry_classification.2.2.2.2.2.1 (statusErr "WHATEVER") "WHATEVER" rfl (by decide),
   retry_classification.2.2.2.2.2.2.1 DsError.other rfl,
   retry_classification.2.2.2.2.2.2.2 Nat (Transaction.new ⟨none, none⟩)
     ⟨.ok (some [0]),
       (fun s => (s, .error ⟨"Commit error", some (statusErr "RESOURCE_EXHAUSTED")⟩)),
       .ok (), 0⟩ [] 3 none none 25000 (some [0])
     (TransactionShell.fromDs { (Transaction.new ⟨none, none⟩).ds with transaction := some [0] })
     ⟨"Commit error", some (statusErr "RESOURCE_EXHAUSTED")⟩
     rfl rfl (fun _ => rfl)
     (Or.inr ⟨statusErr "RESOURCE_EXHAUSTED", rfl, rfl⟩)⟩

/-- C2 counterexample: with the default configuration (base delay 25 ms
= 25000 µs) a Normal-class (ABORTED) retry with random draw 0 sleeps
12500 µs — half the current delay — not exactly the current delay as
the claim states.  (The halving shift is applied on the Normal branch,
not the Backoff branch.) -/
theorem backoff_window_cex :
    (Transaction.new ⟨none, none⟩).first_retry = 25000 ∧
    (Transaction.new ⟨none, none⟩).run
      [(⟨.ok (some [0]),
          fun s => (s, .error ⟨"Commit error", some (statusErr "ABORTED")⟩),
          .ok (), 0⟩ : Attempt Nat),
        ⟨.ok (some [1]), fun s => ({ s with active := false }, .ok 0), .ok (), 0⟩] =
      (some (.ok 0), [.attempt, .rollback, .sleep 12500, .attempt]) ∧
    (12500 : Nat) ≠ 25000 := by
  refine ⟨rfl, rfl, by decide⟩

/-- C2 (amended): `current_delay` starts at the configured base
(default 25 ms).  On a Backoff-class retry `next_delay = 2 * current_delay`,
the slept duration is `rng % current_delay + current_delay`, which lies
in `[current_delay, next_delay)` for every possible random draw, and
`current_delay` becomes `next_delay`.  On a Normal-class (ABORTED)
retry `current_delay` does not grow and the slept duration is
`rng % (current_delay - current_delay/2) + current_delay/2`, which lies
in `[current_delay/2, current_delay)` — not exactly `current_delay`. -/
theorem backoff_window :
    (∀ ds : DatastoreShell, (Transaction.new ds).first_retry = Duration.fromMillis 25) ∧
    (∀ (T : Type) (self : Transaction) (env : List (Attempt T)),
      self.run env = runLoop self env self.retry_count none none self.first_retry) ∧
    (∀ (T : Type) (self : Transaction) (att : Attempt T) (rest : List (Attempt T))
        (n : Nat) (lastError : Option DsError) (lastTxn : Option Token) (d : Nat)
        (tok : Option Token) (shell2 : TransactionShell) (err : EntailError) (raw : DsError),
      att.beginTransport = .ok tok →
      att.body (TransactionShell.fromDs { self.ds with transaction := tok }) =
        (shell2, .error err) →
      (shell2.active = true → (shell2.rollback att.rollbackTransport).2 = .ok ()) →
      err.dsError = some raw →
      RetryRule.basedOnError raw = .backoff →
      0 < d → 2 * d < u64Size →
      d ≤ att.rng % d + d ∧ att.rng % d + d < 2 * d ∧
      runLoop self (att :: rest) (n + 1) lastError lastTxn d =
        ((runLoop self rest n (some raw) tok (2 * d)).1,
          (if shell2.active then [Event.attempt, Event.rollback] else [Event.attempt]) ++
            Event.sleep (att.rng % d + d) ::
              (runLoop self rest n (some raw) tok (2 * d)).2)) ∧
    (∀ (T : Type) (self : Transaction) (att : Attempt T) (rest : List (Attempt T))
        (n : Nat) (lastError : Option DsError) (lastTxn : Option Token) (d : Nat)
        (tok : Option Token) (shell2 : TransactionShell) (err : EntailError) (raw : DsError),
      att.beginTransport = .ok tok →
      att.body (TransactionShell.fromDs { self.ds with transaction := tok }) =
        (shell2, .error err) →
      (shell2.active = true → (shell2.rollback att.rollbackTransport).2 = .ok ()) →
      err.dsError = some raw →
      RetryRule.basedOnError raw = .normal →
      0 < d → d < u64Size →
      d / 2 ≤ att.rng % (d - d / 2) + d / 2 ∧ att.rng % (d - d / 2) + d / 2 < d ∧
      runLoop self (att :: rest) (n + 1) lastError lastTxn d =
        ((runLoop self rest n (some raw) tok d).1,
          (if shell2.active then [Event.attempt, Event.rollback] else [Event.attempt]) ++
            Event.sleep (att.rng % (d - d / 2) + d / 2) ::
              (runLoop self rest n (some raw) tok d).2)) := by
  refine ⟨fun _ => rfl, fun _ _ _ => rfl, ?_, ?_⟩
  · intro T self att rest n lastError lastTxn d tok shell2 err raw
    intro hbegin hbody hrb hraw hrule hd h2d
    have hdu : d < u64Size := by omega
    have hmod : att.rng % d < d := Nat.mod_lt _ hd
    refine ⟨by omega, by omega, ?_⟩
    rw [runLoop_error_step hbegin hbody]
    unfold errorStep
    have hnotfail : (shell2.active && !(shell2.rollback att.rollbackTransport).2.isOk) = false := by
      by_cases ha : shell2.active
      · simp [ha, hrb ha, Except.isOk, Except.toBool]
      · simp [ha]
    rw [hnotfail]
    have h2dm : 2 * d ≤ durationMaxMicros := by
      unfold durationMaxMicros
      unfold u64Size at h2d
      omega
    cases hrec : runLoop self rest n (some raw) tok (2 * d) with
    | mk res evs =>
      simp [hraw, hrule, Duration.checkedMul2, h2dm, Nat.shiftRight_zero,
        Nat.mod_eq_of_lt hdu, Nat.mod_eq_of_lt h2d, hrec,
        show (RetryRule.backoff == RetryRule.backoff) = true from rfl,
        show 2 * d - d = d by omega, show d < 2 * d by omega]
  · intro T self att rest n lastError lastTxn d tok shell2 err raw
    intro hbegin hbody hrb hraw hrule hd hdu
    have hhalf : d / 2 < d := Nat.div_lt_self hd (by omega)
    have hmod : att.rng % (d - d / 2) < d - d / 2 := Nat.mod_lt _ (by omega)
    refine ⟨by omega, by omega, ?_⟩
    rw [runLoop_error_step hbegin hbody]
    unfold errorStep
    have hnotfail : (shell2.active && !(shell2.rollback att.rollbackTransport).2.isOk) = false := by
      by_cases ha : shell2.active
      · simp [ha, hrb ha, Except.isOk, Except.toBool]
      · simp [ha]
    rw [hnotfail]
    cases hrec : runLoop self rest n (some raw) tok d with
    | mk res evs =>
      simp [hraw, hrule, Nat.shiftRight_one, Nat.mod_eq_of_lt hdu,
        Nat.mod_eq_of_lt (show d / 2 < u64Size by omega), hrec, hhalf,
        show (RetryRule.normal == RetryRule.backoff) = false from rfl]

theorem backoff_window_witness :
    ((25000 : Nat) ≤ 7 % 25000 + 25000 ∧ 7 % 25000 + 25000 < 2 * 25000 ∧
      runLoop (Transaction.new ⟨none, none⟩)
          [(⟨.ok (some [0]),
            fun s => (s, .error ⟨"Commit error", some (statusErr "DEADLINE_EXCEEDED")⟩),
            .ok (), 7⟩ : Attempt Nat)] 6 none none 25000 =
        ((runLoop (Transaction.new ⟨none, none⟩) ([] : List (Attempt Nat)) 5
            (some (statusErr "DEADLINE_EXCEEDED")) (some [0]) (2 * 25000)).1,
          [Event.attempt, Event.rollback] ++
            Event.sleep (7 % 25000 + 25000) ::
              (runLoop (Transaction.new ⟨none, none⟩) ([] : List (Attempt Nat)) 5
                (some (statusErr "DEADLINE_EXCEEDED")) (some [0]) (2 * 25000)).2)) ∧
    ((25000 : Nat) / 2 ≤ 7 % (25000 - 25000 / 2) + 25000 / 2 ∧
      7 % (25000 - 25000 / 2) + 25000 / 2 < 25000 ∧
      runLoop (Transaction.new ⟨none, none⟩)
          [(⟨.ok (some [0]),
            fun s => (s, .error ⟨"Commit error", some (statusErr "ABORTED")⟩),
            .ok (), 7⟩ : Attempt Nat)] 6 none none 25000 =
        ((runLoop (Transaction.new ⟨none, none⟩) ([] : List (Attempt Nat)) 5
            (some (statusErr "ABORTED")) (some [0]) 25000).1,
          [Event.attempt, Event.rollback] ++
            Event.sleep (7 % (25000 - 25000 / 2) + 25000 / 2) ::
              (runLoop (Transaction.new ⟨none, none⟩) ([] : List (Attempt Nat)) 5
                (some (statusErr "ABORTED")) (some [0]) 25000).2)) :=
  ⟨backoff_window.2.2.1 Nat (Transaction.new ⟨none, none⟩)
      ⟨.ok (some [0]),
        fun s => (s, .error ⟨"Commit error", some (statusErr "DEADLINE_EXCEEDED")⟩),
        .ok (), 7⟩ [] 5 none none 25000 (some [0])
      (TransactionShell.fromDs
        { (Transaction.new ⟨none, none⟩).ds with transaction := some [0] })
      ⟨"Commit error", some (statusErr "DEADLINE_EXCEEDED")⟩ (statusErr "DEADLINE_EXCEEDED")
      rfl rfl (fun _ => rfl) rfl rfl (by decide) (by decide),
    backoff_window.2.2.2 Nat (Transaction.new ⟨none, none⟩)
      ⟨.ok (some [0]),
        fun s => (s, .error ⟨"Commit error", some (statusErr "ABORTED")⟩),
        .ok (), 7⟩ [] 5 none none 25000 (some [0])
      (TransactionShell.fromDs
        { (Transaction.new ⟨none, none⟩).ds with transaction := some [0] })
      ⟨"Commit error", some (statusErr "ABORTED")⟩ (statusErr "ABORTED")
      rfl rfl (fun _ => rfl) rfl rfl (by decide) (by decide)⟩

/-- C3 counterexample: when the automatic rollback fails after a closure
failure, the surfaced error is neither the rollback failure (whose
model value would be `⟨"Rollback error", some DsError.other⟩`) nor the
original closure failure: it is a new error with message
"Autorollback error" carrying the original failure's transport error. -/
theorem autorollback_error_cex :
    (Transaction.new ⟨none, none⟩).run
      [(⟨.ok (some [7]),
          fun s => (s, .error ⟨"Commit error", some (statusErr "ABORTED")⟩),
          .error DsError.other, 0⟩ : Attempt Nat)] =
      (some (.error ⟨"Autorollback error", some (statusErr "ABORTED")⟩),
        [.attempt, .rollback]) ∧
    EntailError.mk "Autorollback error" (some (statusErr "ABORTED")) ≠
      EntailError.mk "Rollback error" (some DsError.other) ∧
    EntailError.mk "Autorollback error" (some (statusErr "ABORTED")) ≠
      EntailError.mk "Commit error" (some (statusErr "ABORTED")) := by
  refine ⟨rfl, ?_, ?_⟩ <;> intro h <;>
    exact absurd (congrArg EntailError.message h) (by decide)

/-- C3 (amended): whenever the user closure fails while the shell is
still active the runner rolls back automatically before classifying the
failure (the rollback event precedes everything else the iteration
does); if that rollback succeeds the iteration proceeds, and if it
fails the runner immediately returns an error whose message is
"Autorollback error" but whose attached transport error is the original
closure failure's — the rollback failure's own content is discarded. -/
theorem autorollback_precedence :
    (∀ (T : Type) (self : Transaction) (att : Attempt T) (rest : List (Attempt T))
        (n : Nat) (lastError : Option DsError) (lastTxn : Option Token) (d : Nat)
        (tok : Option Token) (shell2 : TransactionShell) (err : EntailError),
      att.beginTransport = .ok tok →
      att.body (TransactionShell.fromDs { self.ds with transaction := tok }) =
        (shell2, .error err) →
      shell2.active = true →
      (shell2.rollback att.rollbackTransport).2.isOk = false →
      runLoop self (att :: rest) (n + 1) lastError lastTxn d =
        (some (.error ⟨"Autorollback error", err.dsError⟩), [.attempt, .rollback])) ∧
    (∀ (T : Type) (self : Transaction) (att : Attempt T) (rest : List (Attempt T))
        (n : Nat) (lastError : Option DsError) (lastTxn : Option Token) (d : Nat)
        (tok : Option Token) (shell2 : TransactionShell) (err : EntailError),
      att.beginTransport = .ok tok →
      att.body (TransactionShell.fromDs { self.ds with transaction := tok }) =
        (shell2, .error err) →
      shell2.active = true →
      (shell2.rollback att.rollbackTransport).2.isOk = true →
      ∃ res evs,
        runLoop self (att :: rest) (n + 1) lastError lastTxn d =
          (res, .attempt :: .rollback :: evs)) := by
  constructor
  · intro T self att rest n lastError lastTxn d tok shell2 err hbegin hbody ha hfail
    rw [runLoop_error_step hbegin hbody]
    unfold errorStep
    simp [ha, hfail]
  · intro T self att rest n lastError lastTxn d tok shell2 err hbegin hbody ha hok
    rw [runLoop_error_step hbegin hbody]
    unfold errorStep
    have hcond : (shell2.active && !(shell2.rollback att.rollbackTransport).2.isOk) = false := by
      simp [ha, hok]
    rw [hcond]
    simp only [ha, Bool.false_eq_true, if_false, if_true]
    rcases herr : err.dsError with _ | raw
    · simp only [herr]
      exact ⟨_, _, rfl⟩
    · cases hcl : RetryRule.basedOnError raw <;>
        simp only [herr, hcl] <;>
        exact ⟨_, _, rfl⟩

theorem autorollback_precedence_witness :
    runLoop (Transaction.new ⟨none, none⟩)
        [(⟨.ok (some [7]),
            fun s => (s, .error ⟨"Commit error", some DsError.other⟩),
            .error DsError.other, 0⟩ : Attempt Nat)] 4 none none 25000 =
      (some (.error ⟨"Autorollback error", some DsError.other⟩), [.attempt, .rollback]) ∧
    (∃ res evs,
      runLoop (Transaction.new ⟨none, none⟩)
          [(⟨.ok (some [7]),
              fun s => (s, .error ⟨"Commit error", some DsError.other⟩),
              .ok (), 0⟩ : Attempt Nat)] 4 none none 25000 =
        (res, .attempt :: .rollback :: evs)) :=
  ⟨autorollback_precedence.1 Nat (Transaction.new ⟨none, none⟩)
      ⟨.ok (some [7]),
        fun s => (s, .error ⟨"Commit error", some DsError.other⟩),
        .error DsError.other, 0⟩ [] 3 none none 25000 (some [7])
      (TransactionShell.fromDs
        { (Transaction.new ⟨none, none⟩).ds with transaction := some [7] })
      ⟨"Commit error", some DsError.other⟩ rfl rfl rfl rfl,
    autorollback_precedence.2 Nat (Transaction.new ⟨none, none⟩)
      ⟨.ok (some [7]),
        fun s => (s, .error ⟨"Commit error", some DsError.other⟩),
        .ok (), 0⟩ [] 3 none none 25000 (some [7])
      (TransactionShell.fromDs
        { (Transaction.new ⟨none, none⟩).ds with transaction := some [7] })
      ⟨"Commit error", some DsError.other⟩ rfl rfl rfl rfl⟩

/-- C4: a failure classified Once (status INTERNAL) makes the runner
clamp the remaining retry budget: when retries remain the budget
becomes exactly 1 (one further attempt), and the budget is never
increased. -/
theorem once_forces_single_retry :
    (∀ (T : Type) (self : Transaction) (att : Attempt T) (rest : List (Attempt T))
        (n : Nat) (lastError : Option DsError) (lastTxn : Option Token) (d : Nat)
        (tok : Option Token) (shell2 : TransactionShell) (err : EntailError) (raw : DsError),
      att.beginTransport = .ok tok →
      att.body (TransactionShell.fromDs { self.ds with transaction := tok }) =
        (shell2, .error err) →
      (shell2.active = true → (shell2.rollback att.rollbackTransport).2 = .ok ()) →
      err.dsError = some raw →
      RetryRule.basedOnError raw = .once →
      runLoop self (att :: rest) (n + 1) lastError lastTxn d =
        ((runLoop self rest (if n > 0 then 1 else n) (some raw) tok d).1,
          (if shell2.active then [Event.attempt, Event.rollback] else [Event.attempt]) ++
            (runLoop self rest (if n > 0 then 1 else n) (some raw) tok d).2)) ∧
    (∀ n : Nat, n > 0 → (if n > 0 then 1 else n) = 1) ∧
    (∀ n : Nat, (if n > 0 then 1 else n) ≤ n) := by
  refine ⟨?_, ?_, ?_⟩
  · intro T self att rest n lastError lastTxn d tok shell2 err raw
    intro hbegin hbody hrb hraw hrule
    rw [runLoop_error_step hbegin hbody]
    unfold errorStep
    have hnotfail : (shell2.active && !(shell2.rollback att.rollbackTransport).2.isOk) = false := by
      by_cases ha : shell2.active
      · simp [ha, hrb ha, Except.isOk, Except.toBool]
      · simp [ha]
    rw [hnotfail]
    cases hrec : runLoop self rest (if n > 0 then 1 else n) (some raw) tok d with
    | mk res evs => simp [hraw, hrule, hrec]
  · intro n h; simp [h]
  · intro n
    by_cases h : n > 0
    · simp [h]
      omega
    · simp [h]

theorem once_forces_single_retry_witness :
    (runLoop (Transaction.new ⟨none, none⟩)
        [(⟨.ok (some [0]),
            fun s => (s, .error ⟨"Commit error", some (statusErr "INTERNAL")⟩),
            .ok (), 0⟩ : Attempt Nat)] 6 none none 25000 =
      ((runLoop (Transaction.new ⟨none, none⟩) ([] : List (Attempt Nat))
          (if 5 > 0 then 1 else 5) (some (statusErr "INTERNAL")) (some [0]) 25000).1,
        [Event.attempt, Event.rollback] ++
          (runLoop (Transaction.new ⟨none, none⟩) ([] : List (Attempt Nat))
            (if 5 > 0 then 1 else 5) (some (statusErr "INTERNAL")) (some [0]) 25000).2)) ∧
    (if (5 : Nat) > 0 then 1 else 5) = 1 ∧
    (if (5 : Nat) > 0 then 1 else 5) ≤ 5 :=
  ⟨once_forces_single_retry.1 Nat (Transaction.new ⟨none, none⟩)
      ⟨.ok (some [0]),
        fun s => (s, .error ⟨"Commit error", some (statusErr "INTERNAL")⟩),
        .ok (), 0⟩ [] 5 none none 25000 (some [0])
      (TransactionShell.fromDs
        { (Transaction.new ⟨none, none⟩).ds with transaction := some [0] })
      ⟨"Commit error", some (statusErr "INTERNAL")⟩ (statusErr "INTERNAL")
      rfl rfl (fun _ => rfl) rfl rfl,
    once_forces_single_retry.2.1 5 (by decide),
    once_forces_single_retry.2.2 5⟩

/-- An environment entry on which the attempt fails with a retryable
classification (Normal, Backoff or Once) and whose automatic rollback,
when needed, succeeds. -/
def RetryableAttempt {T : Type} (self : Transaction) (att : Attempt T) : Prop :=
  ∃ tok shell2 err raw,
    att.beginTransport = .ok tok ∧
    att.body (TransactionShell.fromDs { self.ds with transaction := tok }) =
      (shell2, .error err) ∧
    (shell2.active = true → (shell2.rollback att.rollbackTransport).2 = .ok ()) ∧
    err.dsError = some raw ∧
    (RetryRule.basedOnError raw = .normal ∨ RetryRule.basedOnError raw = .backoff ∨
      RetryRule.basedOnError raw = .once)

theorem countAttempts_append (a b : List Event) :
    countAttempts (a ++ b) = countAttempts a + countAttempts b := by
  simp [countAttempts, List.filter_append]

theorem countAttempts_cons_attempt (t : List Event) :
    countAttempts (Event.attempt :: t) = countAttempts t + 1 := by
  simp [countAttempts, List.filter_cons]

theorem countAttempts_cons_rollback (t : List Event) :
    countAttempts (Event.rollback :: t) = countAttempts t := by
  simp [countAttempts, List.filter_cons,
    show (Event.rollback == Event.attempt) = false from rfl]

theorem countAttempts_cons_sleep (v : Nat) (t : List Event) :
    countAttempts (Event.sleep v :: t) = countAttempts t := by
  simp [countAttempts, List.filter_cons,
    show (Event.sleep v == Event.attempt) = false from rfl]

theorem runLoop_attempts_le {T : Type} (self : Transaction) :
    ∀ (env : List (Attempt T)) (n : Nat) (lastError : Option DsError)
      (lastTxn : Option Token) (d : Nat),
      countAttempts (runLoop self env n lastError lastTxn d).2 ≤ n := by
  intro env
  induction env with
  | nil =>
    intro n lastError lastTxn d
    cases n <;> simp [runLoop, countAttempts]
  | cons att rest ih =>
    intro n lastError lastTxn d
    cases n with
    | zero => simp [runLoop, countAttempts]
    | succ m =>
      have c2 : countAttempts [Event.attempt, Event.rollback] = 1 := rfl
      have c1 : countAttempts [Event.attempt] = 1 := rfl
      have cs : ∀ v, countAttempts [Event.sleep v] = 0 := fun _ => rfl
      cases hbt : att.beginTransport with
      | error e =>
        simp [runLoop, DatastoreShell.begin_transaction, hbt, c1]
      | ok tok =>
        cases hbody : att.body (TransactionShell.fromDs { self.ds with transaction := tok }) with
        | mk shell2 result =>
          cases result with
          | ok v =>
            simp only [runLoop, DatastoreShell.begin_transaction, hbt, hbody]
            by_cases ha : shell2.active
            · cases hrb : (shell2.rollback att.rollbackTransport).2 <;>
                simp [ha, hrb, c1, c2]
            · simp [ha, c1]
          | error err =>
            rw [runLoop_error_step hbt hbody]
            unfold errorStep
            by_cases hfail :
                (shell2.active && !(shell2.rollback att.rollbackTransport).2.isOk) = true
            · rw [if_pos hfail]
              by_cases ha : shell2.active <;> simp [ha, c1, c2]
            · rw [if_neg hfail]
              rcases herr : err.dsError with _ | raw
              · simp only [herr]
                by_cases ha : shell2.active <;> simp [ha, c1, c2]
              · simp only [herr]
                have h2 : (if 0 < m then 1 else m) ≤ m := by
                  split <;> omega
                split <;>
                  [have h1 := ih m (some raw) tok
                    (if (RetryRule.basedOnError raw == RetryRule.backoff) = true
                      then Duration.checkedMul2 d else d);
                   have h1 := ih m (some raw) tok
                    (if (RetryRule.basedOnError raw == RetryRule.backoff) = true
                      then Duration.checkedMul2 d else d);
                   have h1 := ih (if 0 < m then 1 else m) (some raw) tok d;
                   skip] <;>
                  by_cases ha : shell2.active <;>
                  simp [ha, countAttempts_append, countAttempts_cons_attempt,
                    countAttempts_cons_rollback, countAttempts_cons_sleep, c1, c2, cs] <;> omega

theorem runLoop_all_retryable {T : Type} (self : Transaction) :
    ∀ (env : List (Attempt T)), (∀ att ∈ env, RetryableAttempt self att) →
      ∀ (n : Nat) (lastError : Option DsError) (lastTxn : Option Token) (d : Nat),
        (runLoop self env n lastError lastTxn d).1 = none ∨
        ∃ e, (runLoop self env n lastError lastTxn d).1 =
          some (.error ⟨"Retries exhausted", e⟩) := by
  intro env
  induction env with
  | nil =>
    intro _ n lastError lastTxn d
    cases n with
    | zero => exact Or.inr ⟨lastError, rfl⟩
    | succ m => exact Or.inl rfl
  | cons att rest ih =>
    intro hall n lastError lastTxn d
    have hatt : RetryableAttempt self att := hall att (by simp)
    have hrest : ∀ a ∈ rest, RetryableAttempt self a := fun a ha => hall a (by simp [ha])
    cases n with
    | zero => exact Or.inr ⟨lastError, rfl⟩
    | succ m =>
      obtain ⟨tok, shell2, err, raw, hbegin, hbody, hrb, hraw, hcl⟩ := hatt
      rw [runLoop_error_step hbegin hbody]
      unfold errorStep
      have hnotfail :
          (shell2.active && !(shell2.rollback att.rollbackTransport).2.isOk) = false := by
        by_cases ha : shell2.active
        · simp [ha, hrb ha, Except.isOk, Except.toBool]
        · simp [ha]
      rw [hnotfail]
      simp only [Bool.false_eq_true, if_false, hraw]
      rcases hcl with h | h | h <;> simp only [h]
      · exact ih hrest m (some raw) tok
          (if (RetryRule.normal == RetryRule.backoff) = true then Duration.checkedMul2 d else d)
      · exact ih hrest m (some raw) tok
          (if (RetryRule.backoff == RetryRule.backoff) = true then Duration.checkedMul2 d else d)
      · exact ih hrest (if 0 < m then 1 else m) (some raw) tok d

/-- C5: `Transaction::run` makes at most `retry_count` attempts
(default 16); when every attempt fails with a retryable classification,
the loop exhausts its budget and returns a permanent failure whose
message is "Retries exhausted" carrying the last observed transport
error: the exhaustion check returns the tracked `last_error`, and every
retryable attempt replaces the tracked error by its own transport
error before retrying. -/
theorem retries_exhausted :
    (∀ ds : DatastoreShell, (Transaction.new ds).retry_count = 16) ∧
    (∀ (T : Type) (self : Transaction) (env : List (Attempt T)) (lastError : Option DsError)
        (lastTxn : Option Token) (d : Nat),
      runLoop self env 0 lastError lastTxn d =
        (some (.error ⟨"Retries exhausted", lastError⟩), [])) ∧
    (∀ (T : Type) (self : Transaction) (env : List (Attempt T)),
      countAttempts (self.run env).2 ≤ self.retry_count) ∧
    (∀ (T : Type) (self : Transaction) (env : List (Attempt T)),
      (∀ att ∈ env, RetryableAttempt self att) →
      ∀ (n : Nat) (lastError : Option DsError) (lastTxn : Option Token) (d : Nat),
        (runLoop self env n lastError lastTxn d).1 = none ∨
        ∃ e, (runLoop self env n lastError lastTxn d).1 =
          some (.error ⟨"Retries exhausted", e⟩)) ∧
    (∀ (T : Type) (self : Transaction) (att : Attempt T) (rest : List (Attempt T))
        (n : Nat) (lastError : Option DsError) (lastTxn : Option Token) (d : Nat)
        (tok : Option Token) (shell2 : TransactionShell) (err : EntailError) (raw : DsError),
      att.beginTransport = .ok tok →
      att.body (TransactionShell.fromDs { self.ds with transaction := tok }) =
        (shell2, .error err) →
      (shell2.active = true → (shell2.rollback att.rollbackTransport).2 = .ok ()) →
      err.dsError = some raw →
      (RetryRule.basedOnError raw = .normal ∨ RetryRule.basedOnError raw = .backoff ∨
        RetryRule.basedOnError raw = .once) →
      ∃ n2 d2, n2 ≤ n ∧
        (runLoop self (att :: rest) (n + 1) lastError lastTxn d).1 =
          (runLoop self rest n2 (some raw) tok d2).1) := by
  refine ⟨fun _ => rfl, ?_, ?_, ?_, ?_⟩
  · intro T self env lastError lastTxn d
    cases env <;> rfl
  · intro T self env
    exact runLoop_attempts_le self env self.retry_count none none self.first_retry
  · intro T self env hall
    exact runLoop_all_retryable self env hall
  · intro T self att rest n lastError lastTxn d tok shell2 err raw
    intro hbegin hbody hrb hraw hcl
    rw [runLoop_error_step hbegin hbody]
    unfold errorStep
    have hnotfail :
        (shell2.active && !(shell2.rollback att.rollbackTransport).2.isOk) = false := by
      by_cases ha : shell2.active
      · simp [ha, hrb ha, Except.isOk, Except.toBool]
      · simp [ha]
    rw [hnotfail]
    simp only [Bool.false_eq_true, if_false, hraw]
    rcases hcl with h | h | h <;> simp only [h]
    · exact ⟨n, _, le_refl n, rfl⟩
    · exact ⟨n, _, le_refl n, rfl⟩
    · exact ⟨if 0 < n then 1 else n, d, by split <;> omega, rfl⟩

theorem retries_exhausted_witness :
    runLoop (Transaction.new ⟨none, none⟩) ([] : List (Attempt Nat)) 0
        (some DsError.other) none 25000 =
      (some (.error ⟨"Retries exhausted", some DsError.other⟩), []) ∧
    countAttempts ((Transaction.new ⟨none, none⟩).run ([] : List (Attempt Nat))).2 ≤ 16 ∧
    ((runLoop (Transaction.new ⟨none, none⟩)
        [(⟨.ok (some [0]),
            fun s => (s, .error ⟨"Commit error", some (statusErr "ABORTED")⟩),
            .ok (), 0⟩ : Attempt Nat)] 1 none none 25000).1 = none ∨
      ∃ e, (runLoop (Transaction.new ⟨none, none⟩)
        [(⟨.ok (some [0]),
            fun s => (s, .error ⟨"Commit error", some (statusErr "ABORTED")⟩),
            .ok (), 0⟩ : Attempt Nat)] 1 none none 25000).1 =
          some (.error ⟨"Retries exhausted", e⟩)) ∧
    (∃ n2 d2, n2 ≤ 3 ∧
      (runLoop (Transaction.new ⟨none, none⟩)
        [(⟨.ok (some [0]),
            fun s => (s, .error ⟨"Commit error", some (statusErr "ABORTED")⟩),
            .ok (), 0⟩ : Attempt Nat)] 4 none none 25000).1 =
        (runLoop (Transaction.new ⟨none, none⟩) ([] : List (Attempt Nat)) n2
          (some (statusErr "ABORTED")) (some [0]) d2).1) := by
  refine ⟨retries_exhausted.2.1 Nat (Transaction.new ⟨none, none⟩) []
      (some DsError.other) none 25000, ?_, ?_, ?_⟩
  · exact retries_exhausted.2.2.1 Nat (Transaction.new ⟨none, none⟩) []
  · refine retries_exhausted.2.2.2.1 Nat (Transaction.new ⟨none, none⟩) _ ?_ 1 none none 25000
    intro a ha
    rw [List.mem_singleton] at ha
    subst ha
    exact ⟨some [0],
      TransactionShell.fromDs
        { (Transaction.new (⟨none, none⟩ : DatastoreShell)).ds with transaction := some [0] },
      ⟨"Commit error", some (statusErr "ABORTED")⟩, statusErr "ABORTED",
      rfl, rfl, fun _ => rfl, rfl, Or.inl rfl⟩
  · exact retries_exhausted.2.2.2.2 Nat (Transaction.new ⟨none, none⟩)
      ⟨.ok (some [0]),
        fun s => (s, .error ⟨"Commit error", some (statusErr "ABORTED")⟩),
        .ok (), 0⟩ [] 3 none none 25000 (some [0])
      (TransactionShell.fromDs
        { (Transaction.new (⟨none, none⟩ : DatastoreShell)).ds with transaction := some [0] })
      ⟨"Commit error", some (statusErr "ABORTED")⟩ (statusErr "ABORTED")
      rfl rfl (fun _ => rfl) rfl (Or.inl rfl)

/-- C9: committing an empty mutation batch yields an empty successful
response, allocating ids for an empty key collection yields the empty
vector, and reserving an empty key collection succeeds — in every case
without consulting the transport (the Bool component is `false`). -/
theorem empty_batch_short_circuit :
    (∀ (shell : DatastoreShell) (transport : Except DsError ApiCommitResponse),
      shell.commit MutationBatch.new transport = (some (.ok MutationResponse.default), false)) ∧
    (∀ (shell : DatastoreShell) (mutations : List ApiMutation)
        (transport : Except DsError ApiCommitResponse),
      mutations = [] →
      shell.commit ⟨mutations⟩ transport = (some (.ok MutationResponse.default), false)) ∧
    (∀ (shell : DatastoreShell) (transport : Except DsError ApiAllocateIdsResponse),
      shell.allocate_ids [] transport = (some (.ok []), false)) ∧
    (∀ (shell : DatastoreShell) (transport : Except DsError Unit),
      shell.reserve_ids [] transport = (.ok (), false)) := by
  refine ⟨fun shell transport => rfl, ?_, fun shell transport => rfl, fun shell transport => rfl⟩
  intro shell mutations transport h
  subst h
  rfl

theorem empty_batch_short_circuit_witness :
    DatastoreShell.commit ⟨some "db", some [1, 2]⟩ ⟨[]⟩ (.error DsError.other) =
      (some (.ok MutationResponse.default), false) :=
  empty_batch_short_circuit.2.1 ⟨some "db", some [1, 2]⟩ [] (.error DsError.other) rfl

/-- C10: a `TransactionShell` made from a transaction-carrying
`DatastoreShell` starts with `active = true`, and its commit and
rollback clear the `active` flag only when the underlying call
succeeds: after a failed commit or rollback the shell is unchanged, so
it is still active. -/
theorem transaction_shell_active :
    (∀ (ds : DatastoreShell) (tok : Token), ds.transaction = some tok →
      (TransactionShell.fromDs ds).active = true) ∧
    (∀ (ts : TransactionShell) (batch : MutationBatch)
        (transport : Except DsError ApiCommitResponse)
        (r : Except EntailError MutationResponse),
      (ts.commit batch transport).2 = some r →
      ((r.isOk = false → (ts.commit batch transport).1 = ts) ∧
        (r.isOk = true → (ts.commit batch transport).1 = { ts with active := false }))) ∧
    (∀ (ts : TransactionShell) (transport : Except DsError Unit),
      (((ts.rollback transport).2.isOk = false → (ts.rollback transport).1 = ts) ∧
        ((ts.rollback transport).2.isOk = true →
          (ts.rollback transport).1 = { ts with active := false }))) := by
  refine ⟨?_, ?_, ?_⟩
  · intro ds tok h
    simp [TransactionShell.fromDs, h]
  · intro ts batch transport r h
    unfold TransactionShell.commit at h ⊢
    cases hc : (ts.ds.commit batch transport).1 with
    | none => rw [hc] at h; exact absurd h (by simp)
    | some result =>
      rw [hc] at h
      simp only [Option.some_inj] at h
      subst h
      constructor
      · intro hr; simp [hr]
      · intro hr; simp [hr]
  · intro ts transport
    unfold TransactionShell.rollback
    constructor
    · intro hr; simp [hr]
    · intro hr; simp [hr]

theorem transaction_shell_active_witness :
    (TransactionShell.fromDs ⟨none, some [1]⟩).active = true ∧
    ((TransactionShell.fromDs ⟨none, some [1]⟩).commit ⟨[⟨none, none, none, none⟩]⟩
        (.error DsError.other)).1 = TransactionShell.fromDs ⟨none, some [1]⟩ ∧
    ((TransactionShell.fromDs ⟨none, some [1]⟩).rollback (.error DsError.other)).1 =
      TransactionShell.fromDs ⟨none, some [1]⟩ :=
  ⟨transaction_shell_active.1 ⟨none, some [1]⟩ [1] rfl,
    (transaction_shell_active.2.1 (TransactionShell.fromDs ⟨none, some [1]⟩)
      ⟨[⟨none, none, none, none⟩]⟩ (.error DsError.other)
      (.error ⟨"Commit error", some DsError.other⟩) rfl).1 rfl,
    (transaction_shell_active.2.2 (TransactionShell.fromDs ⟨none, some [1]⟩)
      (.error DsError.other)).1 rfl⟩
